import Mathlib

/-!
Shallow embedding of `src/deployment.py`, a FastAPI service serving
precomputed prediction tables.

A pandas `DataFrame` read from CSV is modelled as a column-name list plus a
list of rows; a cell is a number, a string, or `na` (pandas `NaN`, i.e. a
missing value).  The filesystem is modelled as a map from model choice to the
state of its backing file: missing, unparseable (with the parser error
message), or parsed to a table.

`DataFrame.sort_values` delegates its ordering to an `argsort` parameter: the
Python code calls the pandas library, whose contract (documented behaviour of
`sort_values` with `na_position='last'`) is captured by the `SortSpec`
predicate further below.  Theorems about ranking take the contract as a
hypothesis on the `argsort` used; concrete instances (`stableArgsort`, and a
model of numpy's introsort `numpyNargsort`) discharge it on concrete inputs.
-/

inductive Cell where
  | num (q : Rat)
  | str (s : String)
  | na
  deriving DecidableEq, Repr

/-- Numeric view of a cell: `na` (and non-numeric content) has no value.
Ranking theorems are restricted to numeric columns (`numericCol`), where
every cell is `num` or `na`, matching the dtype pandas infers for score and
rank columns. -/
def Cell.toRat? : Cell → Option Rat
  | Cell.num q => some q
  | _ => none

structure DataFrame where
  cols : List String
  rows : List (List Cell)
  deriving DecidableEq, Repr

/-- Position of the first occurrence of a name in a list of column names. -/
def idxOf? (c : String) : List String → Option Nat
  | [] => none
  | s :: rest => if s == c then some 0 else (idxOf? c rest).map (· + 1)

/-- Index of a column name in the header, as used by `"rank" in df.columns`
and by column extraction. -/
def DataFrame.colIndex (df : DataFrame) (c : String) : Option Nat :=
  idxOf? c df.cols

/-- Python `c in df.columns`. -/
def DataFrame.hasCol (df : DataFrame) (c : String) : Bool :=
  (df.colIndex c).isSome

/-- pandas `df.empty`: some axis has length zero. -/
def DataFrame.empty (df : DataFrame) : Bool :=
  df.rows.isEmpty || df.cols.isEmpty

/-- `class ModelChoice(str, Enum)` from the source. -/
inductive ModelChoice where
  | logistic_regression
  | xgboost
  | weibull_tte_rnn
  deriving DecidableEq, Repr

/-- `model_choice.value`. -/
def ModelChoice.value : ModelChoice → String
  | ModelChoice.logistic_regression => "logistic_regression"
  | ModelChoice.xgboost => "xgboost"
  | ModelChoice.weibull_tte_rnn => "weibull_tte_rnn"

/-- `class OutputFormat(str, Enum)` from the source. -/
inductive OutputFormat where
  | json
  | csv
  deriving DecidableEq, Repr

/-- `MODEL_FILES`, reduced to `file_path.name` (the only part the handler
ever puts into a message). -/
def MODEL_FILES : ModelChoice → String
  | ModelChoice.logistic_regression => "logreg_predictions_all.csv"
  | ModelChoice.xgboost => "xgb_predictions_all.csv"
  | ModelChoice.weibull_tte_rnn => "weibull_tte_predictions_all.csv"

/-- `fastapi.HTTPException`, to the extent the source uses it. -/
structure HTTPException where
  status_code : Nat
  detail : String
  deriving DecidableEq, Repr

/-- State of a backing file: absent, present but failing to parse (carrying
the parser error text), or parsed into a table. -/
inductive FileState where
  | missing
  | parseError (msg : String)
  | parsed (df : DataFrame)
  deriving DecidableEq

def detail_missing (m : ModelChoice) : String :=
  "Prediction file not found for model \x27" ++ m.value ++ "\x27: " ++ MODEL_FILES m

def detail_read (m : ModelChoice) (e : String) : String :=
  "Failed to read prediction file \x27" ++ MODEL_FILES m ++ "\x27: " ++ e

def detail_empty (m : ModelChoice) : String :=
  "Prediction file \x27" ++ MODEL_FILES m ++ "\x27 is empty."

/-- `_load_predictions` from the source: 404 if the file does not exist,
500 if the read/parse raises, 404 if the parsed frame is empty, else the
frame. -/
def load_predictions (fs : ModelChoice → FileState) (m : ModelChoice) :
    Except HTTPException DataFrame :=
  match fs m with
  | FileState.missing => Except.error ⟨404, detail_missing m⟩
  | FileState.parseError e => Except.error ⟨500, detail_read m e⟩
  | FileState.parsed df =>
      if df.empty then Except.error ⟨404, detail_empty m⟩
      else Except.ok df

/-- Value of row `r` at column index `ci`, as an optional rational. -/
def cellKey (r : List Cell) (ci : Nat) : Option Rat :=
  (r.getD ci Cell.na).toRat?

/-- The column `c` of `df` as a list of optional rationals (pandas would
hand this column to `nargsort`). -/
def colKeys (df : DataFrame) (c : String) : List (Option Rat) :=
  match df.colIndex c with
  | some ci => df.rows.map (fun r => cellKey r ci)
  | none => []

/-- `keys[i]` with missing-index default `none`. -/
def keyGetD (keys : List (Option Rat)) (i : Nat) : Option Rat :=
  keys.getD i none

/-- `df.sort_values(c, ascending=asc)`: reorder the rows by the permutation
the argsort implementation returns for column `c`. -/
def DataFrame.sort_values (df : DataFrame)
    (argsort : List (Option Rat) → Bool → List Nat)
    (c : String) (asc : Bool) : DataFrame :=
  ⟨df.cols, ((argsort (colKeys df c) asc).map (fun k => df.rows.getD k []))⟩

/-- `df.head(n)`. -/
def DataFrame.head (df : DataFrame) (n : Nat) : DataFrame :=
  ⟨df.cols, df.rows.take n⟩

/-- `_top_rows` from the source.  `reset_index(drop=True)` is the identity in
this model (the model keeps no index labels; neither `to_csv(index=False)`
nor `to_dict(orient="records")` reads them). -/
def top_rows (argsort : List (Option Rat) → Bool → List Nat)
    (df : DataFrame) (model_choice : ModelChoice) (top_x : Nat) :
    Except HTTPException DataFrame :=
  if df.hasCol "rank" then
    Except.ok ((df.sort_values argsort "rank" true).head top_x)
  else if model_choice = ModelChoice.logistic_regression ∨
          model_choice = ModelChoice.xgboost then
    if df.hasCol "prob_first_time_investor" then
      Except.ok ((df.sort_values argsort "prob_first_time_investor" false).head top_x)
    else
      Except.error ⟨422, "Expected column \x27prob_first_time_investor\x27 was not found."⟩
  else
    if df.hasCol "risk_6m" then
      Except.ok ((df.sort_values argsort "risk_6m" false).head top_x)
    else
      Except.error ⟨422, "Expected column \x27risk_6m\x27 was not found."⟩

/-- `top_df.to_dict(orient="records")`: one column-to-value mapping per row,
keys in column order. -/
def to_records (df : DataFrame) : List (List (String × Cell)) :=
  df.rows.map (fun r => df.cols.zip r)

/-- Body of the JSON success response built by `get_predictions`. -/
structure JsonBody where
  model : String
  top_x : Nat
  count : Nat
  results : List (List (String × Cell))
  deriving DecidableEq

/-- A response from the endpoint: JSON body, CSV attachment (content and
filename), or an `HTTPException` turned into an error response. -/
inductive Response where
  | jsonResp (body : JsonBody)
  | csvResp (content : String) (filename : String)
  | errResp (e : HTTPException)
  deriving DecidableEq

/-- Deterministic rendering of a cell, standing in for pandas's scalar
formatting (its exact float formatting is abstracted; only determinism and
injectivity on the shapes used here matter to the claims). -/
def renderCell : Cell → String
  | Cell.num q => toString q
  | Cell.str s => s
  | Cell.na => ""

/-- `top_df.to_csv(index=False)`: header line then one line per row. -/
def DataFrame.to_csv (df : DataFrame) : String :=
  String.intercalate "," df.cols ++ "\n" ++
    String.intercalate "" (df.rows.map (fun r =>
      String.intercalate "," (r.map renderCell) ++ "\n"))

/-- `get_predictions` from the source (after FastAPI has resolved the query
parameters). -/
def get_predictions (argsort : List (Option Rat) → Bool → List Nat)
    (fs : ModelChoice → FileState) (model : ModelChoice) (top_x : Nat)
    (output : OutputFormat) : Response :=
  match load_predictions fs model with
  | Except.error e => Response.errResp e
  | Except.ok df =>
    match top_rows argsort df model top_x with
    | Except.error e => Response.errResp e
    | Except.ok top_df =>
      match output with
      | OutputFormat.csv =>
          Response.csvResp top_df.to_csv
            (model.value ++ "_top_" ++ toString top_x ++ ".csv")
      | OutputFormat.json =>
          Response.jsonResp
            ⟨model.value, top_x, top_df.rows.length, to_records top_df⟩

/-- The endpoint as seen by the transport layer: FastAPI substitutes the
declared defaults `top_x=1000` and `output=json` for omitted parameters and
rejects `top_x` outside `[1, 100000]` with a validation error before the
handler runs. -/
def handle_request (argsort : List (Option Rat) → Bool → List Nat)
    (fs : ModelChoice → FileState) (model : ModelChoice)
    (top_x? : Option Nat) (output? : Option OutputFormat) : Response :=
  let top_x := top_x?.getD 1000
  let output := output?.getD OutputFormat.json
  if top_x < 1 ∨ 100000 < top_x then
    Response.errResp ⟨422, "Input validation failed for top_x."⟩
  else
    get_predictions argsort fs model top_x output

/-- Canonical byte rendering of a JSON body (stands in for the JSON
serializer; deterministic by construction). -/
def renderJsonBody (b : JsonBody) : String :=
  "\x7b\"model\": \"" ++ b.model ++ "\", \"top_x\": " ++ toString b.top_x ++
    ", \"count\": " ++ toString b.count ++ ", \"results\": [" ++
    String.intercalate ", " (b.results.map (fun r =>
      "\x7b" ++ String.intercalate ", " (r.map (fun kv =>
        "\"" ++ kv.1 ++ "\": " ++ renderCell kv.2)) ++ "\x7d")) ++ "]\x7d"

/-- Byte rendering of a full response (body and, for CSV, the attachment
filename; for errors, status and detail). -/
def renderResponse : Response → String
  | Response.jsonResp b => renderJsonBody b
  | Response.csvResp content filename => filename ++ "\n" ++ content
  | Response.errResp e => toString e.status_code ++ ": " ++ e.detail

deriving instance DecidableEq for Except

/-- A 17-row table whose `rank` column is constant: large enough for the
numpy introsort to leave its insertion-sort regime and reorder tied rows. -/
def df17 : DataFrame :=
  ⟨["id", "rank"], (List.range 17).map (fun i => [Cell.num i, Cell.num 1])⟩

/-!
## The sorting contract

`pandas.DataFrame.sort_values(by=c, ascending=asc)` with its defaults
(`kind='quicksort'`, `na_position='last'`) guarantees, per its
implementation `nargsort`: the returned order is a permutation of the row
indices; the rows with a present key are ordered by the key (ascending or
descending); rows with a missing key come after all of them, in their
original relative order.  It does NOT guarantee stability among equal keys
(`mergesort`/`stable` are the only stable kinds).  `SortSpec` states exactly
this contract.
-/

/-- `true` iff the ordered pair of key values is acceptable in a sorted
output (missing keys strictly after present ones). -/
def pairOk (asc : Bool) (a b : Option Rat) : Bool :=
  match a, b with
  | some x, some y => if asc then decide (x ≤ y) else decide (y ≤ x)
  | none, some _ => false
  | _, _ => true

/-- Every earlier/later pair of the list is acceptable. -/
def Sorted2 (asc : Bool) (l : List (Option Rat)) : Prop :=
  ∀ j ∈ List.range l.length, ∀ i ∈ List.range j,
    pairOk asc (keyGetD l i) (keyGetD l j) = true

instance (asc : Bool) (l : List (Option Rat)) : Decidable (Sorted2 asc l) := by
  unfold Sorted2; infer_instance

/-- The documented contract of pandas `nargsort` for a given key column:
`perm` is a permutation of the indices, ordered by key, missing keys last in
original order. -/
def SortSpec (keys : List (Option Rat)) (asc : Bool) (perm : List Nat) : Prop :=
  List.Perm perm (List.range keys.length) ∧
  Sorted2 asc (perm.map (keyGetD keys)) ∧
  perm.filter (fun i => (keyGetD keys i).isNone) =
    (List.range keys.length).filter (fun i => (keyGetD keys i).isNone)

instance (keys : List (Option Rat)) (asc : Bool) (perm : List Nat) :
    Decidable (SortSpec keys asc perm) := by
  unfold SortSpec; infer_instance

/-- The argsort implementation meets the contract on every column of `df`,
for both directions.  Decidable on a concrete `df`. -/
def ArgsortOKFor (argsort : List (Option Rat) → Bool → List Nat)
    (df : DataFrame) : Prop :=
  ∀ c ∈ df.cols, ∀ asc : Bool,
    SortSpec (colKeys df c) asc (argsort (colKeys df c) asc)

instance (argsort : List (Option Rat) → Bool → List Nat) (df : DataFrame) :
    Decidable (ArgsortOKFor argsort df) := by
  unfold ArgsortOKFor; infer_instance

/-!
## A stable reference argsort

Used to instantiate witnesses: a straightforward stable insertion argsort
with missing keys last.  Its contract is discharged by `decide` at the
concrete tables of the witnesses; no general correctness proof is needed.
-/

/-- `keyBefore asc keys j i = true` iff row `j` must come strictly before
row `i`. -/
def keyBefore (asc : Bool) (keys : List (Option Rat)) (j i : Nat) : Bool :=
  match keyGetD keys j, keyGetD keys i with
  | some a, some b => if asc then decide (a < b) else decide (b < a)
  | some _, none => true
  | _, _ => false

def insertIdx2 (bef : Nat → Nat → Bool) (x : Nat) : List Nat → List Nat
  | [] => [x]
  | j :: t => if bef j x then j :: insertIdx2 bef x t else x :: j :: t

def isortIdx (bef : Nat → Nat → Bool) : List Nat → List Nat
  | [] => []
  | x :: xs => insertIdx2 bef x (isortIdx bef xs)

def stableArgsort (keys : List (Option Rat)) (asc : Bool) : List Nat :=
  isortIdx (keyBefore asc keys) (List.range keys.length)

/-!
## numpy introsort (`aquicksort`), the engine behind the default
`kind='quicksort'`

An executable model of numpy's `aquicksort_` / `aheapsort_` on an index
array, and pandas's `nargsort` wrapper around it (mask missing values,
reverse for descending sorts, append the missing-key indices last).  Only
evaluated on concrete inputs; no theorems about it beyond evaluation.
-/

def SMALL_QUICKSORT : Nat := 15

def aswap (t : Array Nat) (i j : Nat) : Array Nat :=
  let a := t.getD i 0
  let b := t.getD j 0
  (t.set! i b).set! j a

/-- `v[t[i]] < v[t[j]]`. -/
def npLt (v : Array Rat) (t : Array Nat) (i j : Nat) : Bool :=
  decide (v.getD (t.getD i 0) 0 < v.getD (t.getD j 0) 0)

/-- `do ++pi; while (v[*pi] < vp);`. -/
def npScanUp (v : Array Rat) (t : Array Nat) (vp : Rat) : Nat → Nat → Nat
  | 0, i => i
  | fuel + 1, i =>
      let i' := i + 1
      if decide (v.getD (t.getD i' 0) 0 < vp) then npScanUp v t vp fuel i' else i'

/-- `do --pj; while (vp < v[*pj]);`. -/
def npScanDown (v : Array Rat) (t : Array Nat) (vp : Rat) : Nat → Nat → Nat
  | 0, j => j
  | fuel + 1, j =>
      let j' := j - 1
      if decide (vp < v.getD (t.getD j' 0) 0) then npScanDown v t vp fuel j' else j'

/-- The partition exchange loop of `aquicksort_`; returns the array and the
final `pi`. -/
def npPartLoop (v : Array Rat) (vp : Rat) :
    Nat → Array Nat → Nat → Nat → Array Nat × Nat
  | 0, t, i, _ => (t, i)
  | fuel + 1, t, i, j =>
      let i' := npScanUp v t vp (t.size + 1) i
      let j' := npScanDown v t vp (t.size + 1) j
      if i' ≥ j' then (t, i')
      else npPartLoop v vp fuel (aswap t i' j') i' j'

/-- Inner shift of the insertion sort: move larger keys right, drop `vi` in
place. -/
def npInsertShift (v : Array Rat) (vp : Rat) (vi : Nat) (pl : Nat) :
    Nat → Array Nat → Nat → Array Nat
  | 0, t, pj => t.set! pj vi
  | fuel + 1, t, pj =>
      if pj > pl ∧ decide (vp < v.getD (t.getD (pj - 1) 0) 0) then
        npInsertShift v vp vi pl fuel (t.set! pj (t.getD (pj - 1) 0)) (pj - 1)
      else t.set! pj vi

/-- Insertion sort of `t[pl..pr]` on keys `v`, as in the small-range branch
of `aquicksort_`. -/
def npInsertionGo (v : Array Rat) (pl pr : Nat) :
    Nat → Array Nat → Nat → Array Nat
  | 0, t, _ => t
  | fuel + 1, t, pi =>
      if pi > pr then t
      else
        let vi := t.getD pi 0
        let vp := v.getD vi 0
        let t' := npInsertShift v vp vi pl (t.size + 1) t pi
        npInsertionGo v pl pr fuel t' (pi + 1)

def npInsertionRange (v : Array Rat) (t : Array Nat) (pl pr : Nat) : Array Nat :=
  npInsertionGo v pl pr (t.size + 1) t (pl + 1)

/-- Sift-down of `aheapsort_` (1-based heap laid over `t[pl..]`, `base = pl`,
`a[x] = t[base + x - 1]`). -/
def npSiftDown (v : Array Rat) (base : Nat) (tmpv : Rat) (tmpi : Nat) (n : Nat) :
    Nat → Array Nat → Nat → Nat → Array Nat
  | 0, t, i, _ => t.set! (base + i - 1) tmpi
  | fuel + 1, t, i, j =>
      if j ≤ n then
        let j :=
          if j < n ∧
              decide (v.getD (t.getD (base + j - 1) 0) 0 <
                v.getD (t.getD (base + j) 0) 0) then j + 1
          else j
        if decide (tmpv < v.getD (t.getD (base + j - 1) 0) 0) then
          npSiftDown v base tmpv tmpi n fuel
            (t.set! (base + i - 1) (t.getD (base + j - 1) 0)) j (2 * j)
        else t.set! (base + i - 1) tmpi
      else t.set! (base + i - 1) tmpi

/-- Heapify phase of `aheapsort_`. -/
def npHeapify (v : Array Rat) (base n : Nat) : Nat → Array Nat → Nat → Array Nat
  | 0, t, _ => t
  | fuel + 1, t, l =>
      if l = 0 then t
      else
        let tmpi := t.getD (base + l - 1) 0
        let t' := npSiftDown v base (v.getD tmpi 0) tmpi n (n + 2) t l (2 * l)
        npHeapify v base n fuel t' (l - 1)

/-- Pop phase of `aheapsort_`. -/
def npHeapPop (v : Array Rat) (base : Nat) : Nat → Array Nat → Nat → Array Nat
  | 0, t, _ => t
  | fuel + 1, t, n =>
      if n ≤ 1 then t
      else
        let tmpi := t.getD (base + n - 1) 0
        let t1 := (t.set! (base + n - 1) (t.getD base 0))
        let n' := n - 1
        let t2 := npSiftDown v base (v.getD tmpi 0) tmpi n' (n' + 2) t1 1 2
        npHeapPop v base fuel t2 n'

/-- `aheapsort_` on the subrange `t[pl..pr]` (depth-limit fallback of the
introsort). -/
def npHeapsortRange (v : Array Rat) (t : Array Nat) (pl pr : Nat) : Array Nat :=
  let n := pr - pl + 1
  npHeapPop v pl (n + 1) (npHeapify v pl n (n + 1) t (n / 2)) n

/-- Main loop of `aquicksort_`: explicit stack, median-of-three pivot,
partition, insertion sort on small ranges, heapsort past the depth limit. -/
def npMain (v : Array Rat) :
    Nat → Array Nat → List (Nat × Nat) → Nat → Nat → Int → Array Nat
  | 0, t, _, _, _, _ => t
  | fuel + 1, t, stack, pl, pr, depth =>
      if pr - pl > SMALL_QUICKSORT then
        if depth < 0 then
          let t' := npHeapsortRange v t pl pr
          match stack with
          | [] => t'
          | (a, b) :: rest => npMain v fuel t' rest a b depth
        else
          let pm := pl + (pr - pl) / 2
          let t1 := if npLt v t pm pl then aswap t pm pl else t
          let t2 := if npLt v t1 pr pm then aswap t1 pr pm else t1
          let t3 := if npLt v t2 pm pl then aswap t2 pm pl else t2
          let vp := v.getD (t3.getD pm 0) 0
          let t4 := aswap t3 pm (pr - 1)
          let pp := npPartLoop v vp (t4.size + 1) t4 pl (pr - 1)
          let t6 := aswap pp.1 pp.2 (pr - 1)
          if pp.2 - pl < pr - pp.2 then
            npMain v fuel t6 ((pp.2 + 1, pr) :: stack) pl (pp.2 - 1) (depth - 1)
          else
            npMain v fuel t6 ((pl, pp.2 - 1) :: stack) (pp.2 + 1) pr (depth - 1)
      else
        let t' := npInsertionRange v t pl pr
        match stack with
        | [] => t'
        | (a, b) :: rest => npMain v fuel t' rest a b depth

/-- numpy `np.argsort(vals, kind='quicksort')`: the introsort above started
on the identity index array with depth limit `2 * msb(n)`. -/
def numpyAquicksortList (vals : List Rat) : List Nat :=
  let v := vals.toArray
  let n := vals.length
  (npMain v (4 * n * n + 64) (Array.range n) [] 0 (n - 1)
    ((2 * Nat.log2 n : Nat) : Int)).toList

/-- pandas `nargsort(key, kind='quicksort', ascending=asc,
na_position='last')`: argsort the present values (reversing twice for a
descending sort), then append the missing-key indices in original order. -/
def numpyNargsort (keys : List (Option Rat)) (asc : Bool) : List Nat :=
  let n := keys.length
  let idx := List.range n
  let nonNanIdx := idx.filter (fun i => (keyGetD keys i).isSome)
  let nanIdx := idx.filter (fun i => (keyGetD keys i).isNone)
  let nonNans := nonNanIdx.map (fun i => (keyGetD keys i).getD 0)
  let vals := if asc then nonNans else nonNans.reverse
  let nidx := if asc then nonNanIdx else nonNanIdx.reverse
  let order := numpyAquicksortList vals
  let indexer := order.map (fun k => nidx.getD k 0)
  let indexer := if asc then indexer else indexer.reverse
  indexer ++ nanIdx

/-!
## Derived ranking descriptors and order predicates used in the statements
-/

/-- The column the selector ranks by, following the branch order of
`_top_rows`. -/
def rankingColumn (df : DataFrame) (mc : ModelChoice) : String :=
  if df.hasCol "rank" then "rank"
  else if mc = ModelChoice.logistic_regression ∨ mc = ModelChoice.xgboost then
    "prob_first_time_investor"
  else "risk_6m"

/-- The direction of the ranking sort: ascending exactly in the `rank`
branch. -/
def rankingAsc (df : DataFrame) : Bool := df.hasCol "rank"

/-- The table carries the column its branch ranks by. -/
def hasRankingCol (df : DataFrame) (mc : ModelChoice) : Bool :=
  df.hasCol (rankingColumn df mc)

/-- Every cell of column `c` is numeric or missing (the dtype pandas infers
for rank and score columns; on a mixed-type column pandas's comparison
semantics differ and the ranking theorems do not apply). -/
def numericCol (df : DataFrame) (c : String) : Bool :=
  match df.colIndex c with
  | some ci => df.rows.all (fun r =>
      match r.getD ci Cell.na with
      | Cell.str _ => false
      | _ => true)
  | none => true

/-- Key value of one row at column `c` of `df` (for filtering statements). -/
def colValOfRow (df : DataFrame) (c : String) (r : List Cell) : Option Rat :=
  match df.colIndex c with
  | some ci => cellKey r ci
  | none => none

/-- Both keys present implies ordered; anything else is unconstrained. -/
def monoPair (asc : Bool) (a b : Option Rat) : Bool :=
  match a, b with
  | some x, some y => if asc then decide (x ≤ y) else decide (y ≤ x)
  | _, _ => true

/-- Present values of the list are non-decreasing (`asc = true`) or
non-increasing (`asc = false`) along the list. -/
def MonoCol (asc : Bool) (l : List (Option Rat)) : Prop :=
  ∀ j ∈ List.range l.length, ∀ i ∈ List.range j,
    monoPair asc (keyGetD l i) (keyGetD l j) = true

instance (asc : Bool) (l : List (Option Rat)) : Decidable (MonoCol asc l) := by
  unfold MonoCol; infer_instance

def nonePair (a b : Option Rat) : Bool := !(a.isNone && b.isSome)

/-- No missing key precedes a present key in the list. -/
def NoneLast (l : List (Option Rat)) : Prop :=
  ∀ j ∈ List.range l.length, ∀ i ∈ List.range j,
    nonePair (keyGetD l i) (keyGetD l j) = true

instance (l : List (Option Rat)) : Decidable (NoneLast l) := by
  unfold NoneLast; infer_instance

/-!
## Plain substring containment (for statements about error messages)
-/

/-- `needle` is an initial segment of `hay`. -/
def seqStarts : List Char → List Char → Bool
  | _, [] => true
  | [], _ :: _ => false
  | a :: as, b :: bs => a == b && seqStarts as bs

/-- `needle` occurs contiguously somewhere in `hay`. -/
def seqContains : List Char → List Char → Bool
  | [], needle => needle.isEmpty
  | h :: t, needle => seqStarts (h :: t) needle || seqContains t needle

/-- `needle` is a contiguous substring of `hay`. -/
def strContains (hay needle : String) : Bool :=
  seqContains hay.data needle.data

theorem seqStarts_refl (l : List Char) : seqStarts l l = true := by
  induction l with
  | nil => rfl
  | cons a as ih => simp [seqStarts, ih]

theorem seqContains_append_right (p e : List Char) :
    seqContains (p ++ e) e = true := by
  induction p with
  | nil =>
    cases e with
    | nil => rfl
    | cons h t => simp [seqContains, seqStarts_refl]
  | cons a p ih => simp [seqContains, ih]

theorem strContains_append_right (p e : String) :
    strContains (p ++ e) e = true := by
  unfold strContains
  rw [String.data_append]
  exact seqContains_append_right p.data e.data

/-!
## Structural lemmas about the selector
-/

theorem mem_of_idxOf? {c : String} :
    ∀ {l : List String} {i : Nat}, idxOf? c l = some i → c ∈ l := by
  intro l
  induction l with
  | nil => intro i h; simp [idxOf?] at h
  | cons a rest ih =>
    intro i h
    unfold idxOf? at h
    by_cases ha : a == c
    · simp only [List.mem_cons]
      left
      exact (eq_of_beq ha).symm
    · simp only [ha, if_neg] at h
      rcases Option.map_eq_some'.mp h with ⟨j, hj, _⟩
      exact List.mem_cons_of_mem a (ih hj)

theorem colIndex_of_hasCol {df : DataFrame} {c : String}
    (h : df.hasCol c = true) : ∃ ci, df.colIndex c = some ci := by
  unfold DataFrame.hasCol at h
  exact Option.isSome_iff_exists.mp h

theorem mem_cols_of_colIndex {df : DataFrame} {c : String} {ci : Nat}
    (h : df.colIndex c = some ci) : c ∈ df.cols :=
  mem_of_idxOf? h

theorem colKeys_length {df : DataFrame} {c : String} {ci : Nat}
    (h : df.colIndex c = some ci) :
    (colKeys df c).length = df.rows.length := by
  unfold colKeys
  rw [h, List.length_map]

theorem keyGetD_colKeys {df : DataFrame} {c : String} {ci : Nat}
    (h : df.colIndex c = some ci) (k : Nat) :
    keyGetD (colKeys df c) k = cellKey (df.rows.getD k []) ci := by
  unfold colKeys keyGetD
  rw [h]
  have hd : (none : Option Rat) = cellKey [] ci := rfl
  rw [hd, List.getD_map]

theorem keyGetD_take {l : List (Option Rat)} {t i : Nat} (h : i < t) :
    keyGetD (l.take t) i = keyGetD l i := by
  unfold keyGetD
  rw [List.getD_eq_getElem?_getD, List.getD_eq_getElem?_getD,
    List.getElem?_take_of_lt h]

theorem colKeys_out {df : DataFrame} {c : String} {ci : Nat}
    (h : df.colIndex c = some ci) (perm : List Nat) (t : Nat) :
    colKeys ⟨df.cols, ((perm.map (fun k => df.rows.getD k [])).take t)⟩ c
      = (perm.map (keyGetD (colKeys df c))).take t := by
  have hidx : (DataFrame.mk df.cols
      ((perm.map (fun k => df.rows.getD k [])).take t)).colIndex c = some ci := h
  unfold colKeys
  rw [hidx]
  show ((perm.map (fun k => df.rows.getD k [])).take t).map
      (fun r => cellKey r ci) = _
  rw [List.map_take, List.map_map]
  refine congrArg (List.take t) (List.map_congr_left ?_)
  intro k _
  exact (keyGetD_colKeys h k).symm

/-- Shape of any successful result of `_top_rows`: the branch column is
present, and the output takes the first `top_x` rows of the reordering the
argsort returned for that column. -/
theorem top_rows_ok_shape {argsort : List (Option Rat) → Bool → List Nat}
    {df : DataFrame} {mc : ModelChoice} {t : Nat} {out : DataFrame}
    (h : top_rows argsort df mc t = Except.ok out) :
    df.hasCol (rankingColumn df mc) = true ∧
    out = ⟨df.cols,
      ((argsort (colKeys df (rankingColumn df mc)) (rankingAsc df)).map
        (fun k => df.rows.getD k [])).take t⟩ := by
  unfold top_rows at h
  unfold rankingColumn rankingAsc
  by_cases h1 : df.hasCol "rank"
  · simp only [h1, if_pos] at h ⊢
    exact ⟨trivial, by cases h; rfl⟩
  · simp only [h1, Bool.false_eq_true, if_neg, if_false] at h ⊢
    by_cases h2 : mc = ModelChoice.logistic_regression ∨ mc = ModelChoice.xgboost
    · simp only [h2, if_pos, if_true] at h ⊢
      by_cases h3 : df.hasCol "prob_first_time_investor"
      · simp only [h3, if_pos] at h
        exact ⟨h3, by cases h; rfl⟩
      · simp only [h3, Bool.false_eq_true, if_neg, if_false] at h
        cases h
    · simp only [h2, if_neg, if_false] at h ⊢
      by_cases h3 : df.hasCol "risk_6m"
      · simp only [h3, if_pos] at h
        exact ⟨h3, by cases h; rfl⟩
      · simp only [h3, Bool.false_eq_true, if_neg, if_false] at h
        cases h

/-- If the branch column is present, `_top_rows` succeeds, with the shape
above. -/
theorem top_rows_ok_of_has {argsort : List (Option Rat) → Bool → List Nat}
    {df : DataFrame} {mc : ModelChoice} {t : Nat}
    (h : hasRankingCol df mc = true) :
    top_rows argsort df mc t = Except.ok ⟨df.cols,
      ((argsort (colKeys df (rankingColumn df mc)) (rankingAsc df)).map
        (fun k => df.rows.getD k [])).take t⟩ := by
  unfold hasRankingCol rankingColumn rankingAsc at *
  unfold top_rows
  by_cases h1 : df.hasCol "rank"
  · simp only [h1, if_pos] at h ⊢
    rfl
  · simp only [h1, Bool.false_eq_true, if_neg, if_false] at h ⊢
    by_cases h2 : mc = ModelChoice.logistic_regression ∨ mc = ModelChoice.xgboost
    · simp only [h2, if_pos, if_true] at h ⊢
      simp only [h, if_pos]
      rfl
    · simp only [h2, if_neg, if_false] at h ⊢
      simp only [h, if_pos]
      rfl

theorem sorted2_take {asc : Bool} {l : List (Option Rat)} (t : Nat)
    (h : Sorted2 asc l) : Sorted2 asc (l.take t) := by
  intro j hj i hi
  rw [List.mem_range] at hj hi
  have hjt : j < t := lt_of_lt_of_le hj (by rw [List.length_take]; exact min_le_left _ _)
  have hjl : j < l.length := lt_of_lt_of_le hj (by rw [List.length_take]; exact min_le_right _ _)
  rw [keyGetD_take (lt_trans hi hjt), keyGetD_take hjt]
  exact h j (List.mem_range.mpr hjl) i (List.mem_range.mpr hi)

theorem sorted2_monoCol {asc : Bool} {l : List (Option Rat)}
    (h : Sorted2 asc l) : MonoCol asc l := by
  intro j hj i hi
  have hp := h j hj i hi
  cases ha : keyGetD l i <;> cases hb : keyGetD l j <;>
    rw [ha, hb] at hp <;> simp [monoPair, pairOk] at hp ⊢ <;> exact hp

theorem sorted2_noneLast {asc : Bool} {l : List (Option Rat)}
    (h : Sorted2 asc l) : NoneLast l := by
  intro j hj i hi
  have hp := h j hj i hi
  cases ha : keyGetD l i <;> cases hb : keyGetD l j <;>
    rw [ha, hb] at hp <;> simp [nonePair, pairOk] at hp ⊢

theorem map_getD_range (rows : List (List Cell)) :
    (List.range rows.length).map (fun k => rows.getD k []) = rows := by
  induction rows with
  | nil => rfl
  | cons r rs ih =>
    rw [List.length_cons, List.range_succ_eq_map, List.map_cons, List.map_map]
    show r :: (List.range rs.length).map
        ((fun k => (r :: rs).getD k []) ∘ Nat.succ) = r :: rs
    have hc : ((fun k => (r :: rs).getD k []) ∘ Nat.succ)
        = (fun k => rs.getD k []) := rfl
    rw [hc, ih]

theorem filter_map_getD (rows : List (List Cell)) (perm : List Nat)
    (p : List Cell → Bool) :
    (perm.map (fun k => rows.getD k [])).filter p
      = (perm.filter (fun k => p (rows.getD k []))).map
          (fun k => rows.getD k []) := by
  rw [List.filter_map]
  rfl

/-- The sort contract instance used by a successful `_top_rows` call. -/
theorem sortSpec_of_ok {argsort : List (Option Rat) → Bool → List Nat}
    {df : DataFrame} {mc : ModelChoice} {t : Nat} {out : DataFrame}
    (hok : ArgsortOKFor argsort df)
    (h : top_rows argsort df mc t = Except.ok out) :
    SortSpec (colKeys df (rankingColumn df mc)) (rankingAsc df)
      (argsort (colKeys df (rankingColumn df mc)) (rankingAsc df)) := by
  obtain ⟨hcol, -⟩ := top_rows_ok_shape h
  obtain ⟨ci, hci⟩ := colIndex_of_hasCol hcol
  exact hok _ (mem_cols_of_colIndex hci) (rankingAsc df)

theorem perm_length_of_ok {argsort : List (Option Rat) → Bool → List Nat}
    {df : DataFrame} {mc : ModelChoice} {t : Nat} {out : DataFrame}
    (hok : ArgsortOKFor argsort df)
    (h : top_rows argsort df mc t = Except.ok out) :
    (argsort (colKeys df (rankingColumn df mc)) (rankingAsc df)).length
      = df.rows.length := by
  obtain ⟨hcol, -⟩ := top_rows_ok_shape h
  obtain ⟨ci, hci⟩ := colIndex_of_hasCol hcol
  have hspec := sortSpec_of_ok hok h
  have hlen := hspec.1.length_eq
  rw [List.length_range, colKeys_length hci] at hlen
  exact hlen

/-- Row count of any successful selector output. -/
theorem out_rows_length {argsort : List (Option Rat) → Bool → List Nat}
    {df : DataFrame} {mc : ModelChoice} {t : Nat} {out : DataFrame}
    (hok : ArgsortOKFor argsort df)
    (h : top_rows argsort df mc t = Except.ok out) :
    out.rows.length = min t df.rows.length := by
  obtain ⟨hcol, hout⟩ := top_rows_ok_shape h
  rw [hout]
  show (((argsort (colKeys df (rankingColumn df mc)) (rankingAsc df)).map
      (fun k => df.rows.getD k [])).take t).length = _
  rw [List.length_take, List.length_map, perm_length_of_ok hok h]

/-- The ranking column of a successful selector output is ordered (by the
branch direction) wherever both values are present. -/
theorem monoCol_of_ok {argsort : List (Option Rat) → Bool → List Nat}
    {df : DataFrame} {mc : ModelChoice} {t : Nat} {out : DataFrame}
    (hok : ArgsortOKFor argsort df)
    (h : top_rows argsort df mc t = Except.ok out) :
    MonoCol (rankingAsc df) (colKeys out (rankingColumn df mc)) := by
  obtain ⟨hcol, hout⟩ := top_rows_ok_shape h
  obtain ⟨ci, hci⟩ := colIndex_of_hasCol hcol
  have hspec := sortSpec_of_ok hok h
  rw [hout, colKeys_out hci]
  exact sorted2_monoCol (sorted2_take t hspec.2.1)

/-- No row with a missing ranking value precedes a row with a present one in
a successful selector output. -/
theorem noneLast_of_ok {argsort : List (Option Rat) → Bool → List Nat}
    {df : DataFrame} {mc : ModelChoice} {t : Nat} {out : DataFrame}
    (hok : ArgsortOKFor argsort df)
    (h : top_rows argsort df mc t = Except.ok out) :
    NoneLast (colKeys out (rankingColumn df mc)) := by
  obtain ⟨hcol, hout⟩ := top_rows_ok_shape h
  obtain ⟨ci, hci⟩ := colIndex_of_hasCol hcol
  have hspec := sortSpec_of_ok hok h
  rw [hout, colKeys_out hci]
  exact sorted2_noneLast (sorted2_take t hspec.2.1)

/-- C2: for every loaded table and valid `top_x`, a successful selector
output is sorted by the applicable criterion: non-decreasing in `rank` when
a `rank` column exists, otherwise non-increasing in
`prob_first_time_investor` for the two classifier models and non-increasing
in `risk_6m` for the time-to-event model.  The argsort is assumed to meet
the pandas `sort_values` contract on the table's columns, and the ranking
column to be numeric (the dtype pandas infers for these columns). -/
theorem C2_ranking_order (argsort : List (Option Rat) → Bool → List Nat)
    (df : DataFrame) (mc : ModelChoice) (t : Nat) (out : DataFrame)
    (hok : ArgsortOKFor argsort df)
    (hnum : numericCol df (rankingColumn df mc) = true)
    (h : top_rows argsort df mc t = Except.ok out) :
    (df.hasCol "rank" = true → MonoCol true (colKeys out "rank")) ∧
    (df.hasCol "rank" = false →
      (mc = ModelChoice.logistic_regression ∨ mc = ModelChoice.xgboost) →
      MonoCol false (colKeys out "prob_first_time_investor")) ∧
    (df.hasCol "rank" = false → mc = ModelChoice.weibull_tte_rnn →
      MonoCol false (colKeys out "risk_6m")) := by
  have hmono := monoCol_of_ok hok h
  refine ⟨?_, ?_, ?_⟩
  · intro h1
    have hc : rankingColumn df mc = "rank" := by unfold rankingColumn; rw [h1]; rfl
    have ha : rankingAsc df = true := h1
    rw [hc, ha] at hmono
    exact hmono
  · intro h1 h2
    have hc : rankingColumn df mc = "prob_first_time_investor" := by
      unfold rankingColumn
      rw [h1]
      simp [h2]
    have ha : rankingAsc df = false := h1
    rw [hc, ha] at hmono
    exact hmono
  · intro h1 h2
    have hc : rankingColumn df mc = "risk_6m" := by
      unfold rankingColumn
      rw [h1]
      subst h2
      simp
    have ha : rankingAsc df = false := h1
    rw [hc, ha] at hmono
    exact hmono

theorem rows_pos_of_not_empty {df : DataFrame} (h : df.empty = false) :
    0 < df.rows.length := by
  unfold DataFrame.empty at h
  rw [Bool.or_eq_false_iff] at h
  have h1 := h.1
  cases hr : df.rows with
  | nil => rw [hr] at h1; simp at h1
  | cons a l => simp

theorem to_records_length (df : DataFrame) :
    (to_records df).length = df.rows.length := by
  unfold to_records
  rw [List.length_map]

/-- Decomposition of a successful JSON response of the endpoint. -/
theorem get_predictions_json_shape
    {argsort : List (Option Rat) → Bool → List Nat}
    {fs : ModelChoice → FileState} {m : ModelChoice} {t : Nat} {b : JsonBody}
    (h : get_predictions argsort fs m t OutputFormat.json
      = Response.jsonResp b) :
    ∃ df top_df, fs m = FileState.parsed df ∧ df.empty = false ∧
      top_rows argsort df m t = Except.ok top_df ∧
      b = ⟨m.value, t, top_df.rows.length, to_records top_df⟩ := by
  unfold get_predictions load_predictions at h
  cases hfs : fs m with
  | missing => rw [hfs] at h; simp at h
  | parseError e => rw [hfs] at h; simp at h
  | parsed df =>
    rw [hfs] at h
    by_cases hemp : df.empty
    · simp [hemp] at h
    · simp only [hemp, Bool.false_eq_true, if_neg, if_false] at h
      cases htr : top_rows argsort df m t with
      | error e => rw [htr] at h; simp at h
      | ok top_df =>
        rw [htr] at h
        simp only [] at h
        refine ⟨df, top_df, rfl, by simpa using hemp, htr, ?_⟩
        cases h
        rfl

/-- C3: for a valid model whose backing table parses non-empty and a valid
`top_x`, a successful JSON `/predictions` response is non-empty and its row
count is at most `top_x` and at most the table's row count (and equals the
length of the returned row list). -/
theorem C3_row_count_bounds (argsort : List (Option Rat) → Bool → List Nat)
    (fs : ModelChoice → FileState) (m : ModelChoice) (t : Nat)
    (df : DataFrame) (b : JsonBody)
    (hfs : fs m = FileState.parsed df)
    (ht1 : 1 ≤ t) (ht2 : t ≤ 100000)
    (hok : ArgsortOKFor argsort df)
    (h : get_predictions argsort fs m t OutputFormat.json
      = Response.jsonResp b) :
    1 ≤ b.count ∧ b.count ≤ t ∧ b.count ≤ df.rows.length ∧
    b.count = b.results.length := by
  obtain ⟨df', top_df, hfs', hemp, htr, hb⟩ := get_predictions_json_shape h
  rw [hfs] at hfs'
  injection hfs' with hdf
  subst hdf
  have hcount : b.count = top_df.rows.length := by rw [hb]
  have hres : b.results = to_records top_df := by rw [hb]
  have hlen := out_rows_length hok htr
  have hpos := rows_pos_of_not_empty hemp
  refine ⟨?_, ?_, ?_, ?_⟩
  · rw [hcount, hlen]
    exact le_min ht1 hpos
  · rw [hcount, hlen]
    exact min_le_left _ _
  · rw [hcount, hlen]
    exact min_le_right _ _
  · rw [hcount, hres, to_records_length]

/-- C4 (amended): for a non-empty table that carries the column its branch
ranks by, `top_x` greater than the row count makes the selector succeed with
exactly the full row count.  (As frozen, the claim also covered tables
lacking the ranking column, where the selector raises 422 instead; see the
counterexample.) -/
theorem C4_truncation (argsort : List (Option Rat) → Bool → List Nat)
    (df : DataFrame) (mc : ModelChoice) (t : Nat)
    (hne : df.empty = false)
    (hcol : hasRankingCol df mc = true)
    (hok : ArgsortOKFor argsort df)
    (ht : df.rows.length < t) :
    ∃ out, top_rows argsort df mc t = Except.ok out ∧
      out.rows.length = df.rows.length := by
  refine ⟨_, top_rows_ok_of_has hcol, ?_⟩
  rw [out_rows_length hok (top_rows_ok_of_has hcol)]
  exact min_eq_right (le_of_lt ht)

/-- C4 counterexample: a non-empty one-row table with no `rank` column and
no `prob_first_time_investor` column, requested with `top_x = 2 > 1` for a
classifier model, makes the selector fail with 422 rather than return the
single row. -/
theorem C4_counterexample :
    (DataFrame.mk ["id"] [[Cell.num 1]]).empty = false ∧
    (DataFrame.mk ["id"] [[Cell.num 1]]).rows.length < 2 ∧
    top_rows stableArgsort ⟨["id"], [[Cell.num 1]]⟩
        ModelChoice.logistic_regression 2
      = Except.error
          ⟨422, "Expected column \x27prob_first_time_investor\x27 was not found."⟩ := by
  refine ⟨rfl, by decide, rfl⟩

theorem colValOfRow_getD {df : DataFrame} {c : String} {ci : Nat}
    (h : df.colIndex c = some ci) (k : Nat) :
    colValOfRow df c (df.rows.getD k []) = keyGetD (colKeys df c) k := by
  unfold colValOfRow
  rw [h, keyGetD_colKeys h]

/-- C10: in every ranking branch, rows with a missing (null) value in the
ranking column are placed after all rows with a present value, are not
dropped (whenever `top_x` covers the table), and cause no error.  Among
themselves they keep the source order.  Hypotheses: the branch column is
present and numeric, and the argsort meets the pandas contract. -/
theorem C10_missing_values_last (argsort : List (Option Rat) → Bool → List Nat)
    (df : DataFrame) (mc : ModelChoice) (t : Nat)
    (hok : ArgsortOKFor argsort df)
    (hcol : hasRankingCol df mc = true)
    (hnum : numericCol df (rankingColumn df mc) = true) :
    ∃ out, top_rows argsort df mc t = Except.ok out ∧
      NoneLast (colKeys out (rankingColumn df mc)) ∧
      (df.rows.length ≤ t →
        out.rows.length = df.rows.length ∧
        out.rows.filter
            (fun r => (colValOfRow df (rankingColumn df mc) r).isNone)
          = df.rows.filter
              (fun r => (colValOfRow df (rankingColumn df mc) r).isNone)) := by
  have hh := @top_rows_ok_of_has argsort df mc t hcol
  refine ⟨_, hh, noneLast_of_ok hok hh, ?_⟩
  intro hle
  constructor
  · rw [out_rows_length hok hh]
    exact min_eq_right hle
  · obtain ⟨ci, hci⟩ := colIndex_of_hasCol hcol
    have hspec := hok _ (mem_cols_of_colIndex hci) (rankingAsc df)
    have hperm := hspec.1.length_eq
    rw [List.length_range, colKeys_length hci] at hperm
    show ((((argsort (colKeys df (rankingColumn df mc)) (rankingAsc df)).map
        (fun k => df.rows.getD k [])).take t).filter _) = _
    rw [List.take_of_length_le (by rw [List.length_map, hperm]; exact hle)]
    rw [filter_map_getD]
    have hq : ∀ k ∈ argsort (colKeys df (rankingColumn df mc)) (rankingAsc df),
        (fun k => (colValOfRow df (rankingColumn df mc)
            (df.rows.getD k [])).isNone) k
          = (fun i => (keyGetD (colKeys df (rankingColumn df mc)) i).isNone) k := by
      intro k _
      simp only [colValOfRow_getD hci]
    rw [List.filter_congr hq, hspec.2.2]
    have hq2 : ∀ k ∈ List.range (colKeys df (rankingColumn df mc)).length,
        (fun i => (keyGetD (colKeys df (rankingColumn df mc)) i).isNone) k
          = (fun k => (colValOfRow df (rankingColumn df mc)
              (df.rows.getD k [])).isNone) k := by
      intro k _
      simp only [colValOfRow_getD hci]
    rw [List.filter_congr hq2]
    rw [colKeys_length hci]
    rw [← filter_map_getD df.rows (List.range df.rows.length)
      (fun r => (colValOfRow df (rankingColumn df mc) r).isNone)]
    rw [map_getD_range]

/-- C5: each failure class maps to its distinct HTTP status, and nothing
else happens on these inputs: missing file → 404; parse failure → 500 with
the parse error text inside the message; empty parsed table → 404; table
lacking both `rank` and the model's score column → 422 with the missing
column named in the message. -/
theorem C5_error_status_mapping (argsort : List (Option Rat) → Bool → List Nat)
    (fs : ModelChoice → FileState) (m : ModelChoice) (t : Nat)
    (o : OutputFormat) :
    (fs m = FileState.missing →
      get_predictions argsort fs m t o
        = Response.errResp ⟨404, detail_missing m⟩) ∧
    (∀ e, fs m = FileState.parseError e →
      get_predictions argsort fs m t o = Response.errResp ⟨500, detail_read m e⟩ ∧
      strContains (detail_read m e) e = true) ∧
    (∀ df, fs m = FileState.parsed df → df.empty = true →
      get_predictions argsort fs m t o
        = Response.errResp ⟨404, detail_empty m⟩) ∧
    (∀ df, fs m = FileState.parsed df → df.empty = false →
      df.hasCol "rank" = false →
      (m = ModelChoice.logistic_regression ∨ m = ModelChoice.xgboost) →
      df.hasCol "prob_first_time_investor" = false →
      get_predictions argsort fs m t o
        = Response.errResp
            ⟨422, "Expected column \x27prob_first_time_investor\x27 was not found."⟩ ∧
      strContains "Expected column \x27prob_first_time_investor\x27 was not found."
        "prob_first_time_investor" = true) ∧
    (∀ df, fs m = FileState.parsed df → df.empty = false →
      df.hasCol "rank" = false → m = ModelChoice.weibull_tte_rnn →
      df.hasCol "risk_6m" = false →
      get_predictions argsort fs m t o
        = Response.errResp ⟨422, "Expected column \x27risk_6m\x27 was not found."⟩ ∧
      strContains "Expected column \x27risk_6m\x27 was not found." "risk_6m" = true) := by
  refine ⟨?_, ?_, ?_, ?_, ?_⟩
  · intro hfs
    unfold get_predictions load_predictions
    rw [hfs]
  · intro e hfs
    refine ⟨?_, ?_⟩
    · unfold get_predictions load_predictions
      rw [hfs]
    · unfold detail_read
      exact strContains_append_right _ e
  · intro df hfs hemp
    unfold get_predictions load_predictions
    rw [hfs]
    simp [hemp]
  · intro df hfs hemp hrank hm hprob
    refine ⟨?_, by decide⟩
    unfold get_predictions load_predictions
    rw [hfs]
    simp only [hemp, Bool.false_eq_true, if_neg, if_false]
    unfold top_rows
    simp only [hrank, Bool.false_eq_true, if_neg, if_false, hm, if_pos, if_true,
      hprob]
  · intro df hfs hemp hrank hm hrisk
    refine ⟨?_, by decide⟩
    unfold get_predictions load_predictions
    rw [hfs]
    simp only [hemp, Bool.false_eq_true, if_neg, if_false]
    unfold top_rows
    have hm2 : ¬(m = ModelChoice.logistic_regression ∨ m = ModelChoice.xgboost) := by
      subst hm
      simp
    simp only [hrank, Bool.false_eq_true, if_neg, if_false, hm2, hrisk]

/-- C6 counterexample: for a backing file that parses to zero rows, the 404
message of the loader names the file but not the model — here
`logistic_regression` does not occur in the message, refuting the claim that
both NotFound messages name file and model. -/
theorem C6_counterexample :
    load_predictions (fun _ => FileState.parsed ⟨["customer_id"], []⟩)
        ModelChoice.logistic_regression
      = Except.error ⟨404, detail_empty ModelChoice.logistic_regression⟩ ∧
    strContains (detail_empty ModelChoice.logistic_regression)
        (ModelChoice.logistic_regression).value = false ∧
    strContains (detail_empty ModelChoice.logistic_regression)
        (MODEL_FILES ModelChoice.logistic_regression) = true := by
  refine ⟨rfl, by decide, by decide⟩

/-- C6 (amended): the missing-file 404 names both the offending file and the
model; the zero-row 404 names the offending file only. -/
theorem C6_notfound_messages (fs : ModelChoice → FileState) (m : ModelChoice) :
    (fs m = FileState.missing →
      load_predictions fs m = Except.error ⟨404, detail_missing m⟩ ∧
      strContains (detail_missing m) (MODEL_FILES m) = true ∧
      strContains (detail_missing m) m.value = true) ∧
    (∀ df, fs m = FileState.parsed df → df.empty = true →
      load_predictions fs m = Except.error ⟨404, detail_empty m⟩ ∧
      strContains (detail_empty m) (MODEL_FILES m) = true) := by
  constructor
  · intro hfs
    refine ⟨?_, ?_, ?_⟩
    · unfold load_predictions
      rw [hfs]
    · cases m <;> decide
    · cases m <;> decide
  · intro df hfs hemp
    refine ⟨?_, ?_⟩
    · unfold load_predictions
      rw [hfs]
      simp [hemp]
    · cases m <;> decide

/-- C7: a successful JSON response carries the model identifier, the
requested `top_x`, the actual row count, and the selected rows as an
ordered sequence of column-to-value mappings; the reported count equals the
length of the row list. -/
theorem C7_json_body_shape (argsort : List (Option Rat) → Bool → List Nat)
    (fs : ModelChoice → FileState) (m : ModelChoice) (t : Nat) (b : JsonBody)
    (h : get_predictions argsort fs m t OutputFormat.json
      = Response.jsonResp b) :
    ∃ df top_df, fs m = FileState.parsed df ∧
      top_rows argsort df m t = Except.ok top_df ∧
      b.model = m.value ∧ b.top_x = t ∧
      b.results = to_records top_df ∧
      b.count = b.results.length := by
  obtain ⟨df, top_df, hfs, hemp, htr, hb⟩ := get_predictions_json_shape h
  subst hb
  exact ⟨df, top_df, hfs, htr, rfl, rfl, rfl, (to_records_length top_df).symm⟩

/-- C8: the handler is deterministic — two identical requests evaluated
against an identical filesystem state (hence an unchanged backing table)
produce identical responses, byte-identical once rendered.  The handler
reads no other state, so the embedding is a pure function of the request and
the filesystem. -/
theorem C8_deterministic (argsort : List (Option Rat) → Bool → List Nat)
    (fs fs' : ModelChoice → FileState) (m m' : ModelChoice) (t t' : Nat)
    (o o' : OutputFormat)
    (hfs : fs = fs') (hm : m = m') (ht : t = t') (ho : o = o') :
    get_predictions argsort fs m t o = get_predictions argsort fs' m' t' o' ∧
    renderResponse (get_predictions argsort fs m t o)
      = renderResponse (get_predictions argsort fs' m' t' o') := by
  subst hfs hm ht ho
  exact ⟨rfl, rfl⟩

/-- C9: an omitted `top_x` defaults to 1000 and an omitted `output` to
`json`, and the request then behaves exactly as if those values had been
passed explicitly. -/
theorem C9_defaults (argsort : List (Option Rat) → Bool → List Nat)
    (fs : ModelChoice → FileState) (m : ModelChoice) :
    handle_request argsort fs m none none
      = handle_request argsort fs m (some 1000) (some OutputFormat.json) ∧
    handle_request argsort fs m none none
      = get_predictions argsort fs m 1000 OutputFormat.json := by
  refine ⟨rfl, ?_⟩
  unfold handle_request
  rw [if_neg]
  · rfl
  · decide

set_option maxRecDepth 8000 in
/-- C1 (evidence against the claim): the sort the code performs is pandas
`sort_values` with its default `kind='quicksort'` — numpy's introsort,
modelled by `numpyNargsort`.  On a 17-row table whose `rank` keys are all
equal, that argsort meets the pandas contract yet returns the rows in the
order 0, 14, 13, ..., 7, 16 rather than the source order, so the selector's
output does not preserve the original order among equal keys. -/
theorem C1_quicksort_unstable :
    ArgsortOKFor numpyNargsort df17 ∧
    (top_rows numpyNargsort df17 ModelChoice.logistic_regression 17).map
        (fun o => colKeys o "id")
      = Except.ok ((([0, 14, 13, 12, 11, 10, 9, 15, 8, 6, 5, 4, 3, 2, 1, 7,
          16] : List Nat)).map (fun i => some (i : Rat))) ∧
    (top_rows numpyNargsort df17 ModelChoice.logistic_regression 17).map
        (fun o => colKeys o "id")
      ≠ Except.ok (colKeys df17 "id") := by
  refine ⟨by decide, by decide, by decide⟩

/-- Witness for `C2_ranking_order` at a concrete two-row table with a
`rank` column. -/
theorem C2_witness :
    MonoCol true
      (colKeys (⟨["rank"], [[Cell.num 1], [Cell.num 2]]⟩ : DataFrame) "rank") :=
  (C2_ranking_order stableArgsort ⟨["rank"], [[Cell.num 2], [Cell.num 1]]⟩
    ModelChoice.xgboost 2 ⟨["rank"], [[Cell.num 1], [Cell.num 2]]⟩
    (by decide) (by decide) (by decide)).1 rfl

/-- Witness for `C3_row_count_bounds` at a concrete one-row table. -/
theorem C3_witness :
    1 ≤ (JsonBody.mk "logistic_regression" 1 1 [[("rank", Cell.num 1)]]).count ∧
    (JsonBody.mk "logistic_regression" 1 1 [[("rank", Cell.num 1)]]).count ≤ 1 ∧
    (JsonBody.mk "logistic_regression" 1 1 [[("rank", Cell.num 1)]]).count
      ≤ (DataFrame.mk ["rank"] [[Cell.num 1]]).rows.length ∧
    (JsonBody.mk "logistic_regression" 1 1 [[("rank", Cell.num 1)]]).count
      = (JsonBody.mk "logistic_regression" 1 1 [[("rank", Cell.num 1)]]).results.length :=
  C3_row_count_bounds stableArgsort
    (fun _ => FileState.parsed ⟨["rank"], [[Cell.num 1]]⟩)
    ModelChoice.logistic_regression 1 ⟨["rank"], [[Cell.num 1]]⟩
    ⟨"logistic_regression", 1, 1, [[("rank", Cell.num 1)]]⟩
    rfl (by decide) (by decide) (by decide) (by decide)

/-- Witness for `C4_truncation` at a concrete two-row table with
`top_x = 3`. -/
theorem C4_witness :
    ∃ out, top_rows stableArgsort ⟨["rank"], [[Cell.num 1], [Cell.num 2]]⟩
        ModelChoice.weibull_tte_rnn 3 = Except.ok out ∧
      out.rows.length
        = (DataFrame.mk ["rank"] [[Cell.num 1], [Cell.num 2]]).rows.length :=
  C4_truncation stableArgsort ⟨["rank"], [[Cell.num 1], [Cell.num 2]]⟩
    ModelChoice.weibull_tte_rnn 3 (by decide) (by decide) (by decide) (by decide)

/-- Witness for `C5_error_status_mapping`: one concrete request per failure
class. -/
theorem C5_witness :
    (get_predictions stableArgsort (fun _ => FileState.missing)
        ModelChoice.xgboost 5 OutputFormat.json
      = Response.errResp ⟨404, detail_missing ModelChoice.xgboost⟩) ∧
    (get_predictions stableArgsort (fun _ => FileState.parseError "bad line")
        ModelChoice.logistic_regression 5 OutputFormat.csv
      = Response.errResp
          ⟨500, detail_read ModelChoice.logistic_regression "bad line"⟩ ∧
      strContains (detail_read ModelChoice.logistic_regression "bad line")
        "bad line" = true) ∧
    (get_predictions stableArgsort
        (fun _ => FileState.parsed ⟨["customer_id"], []⟩)
        ModelChoice.weibull_tte_rnn 5 OutputFormat.json
      = Response.errResp ⟨404, detail_empty ModelChoice.weibull_tte_rnn⟩) ∧
    (get_predictions stableArgsort
        (fun _ => FileState.parsed ⟨["customer_id"], [[Cell.num 7]]⟩)
        ModelChoice.logistic_regression 5 OutputFormat.json
      = Response.errResp
          ⟨422, "Expected column \x27prob_first_time_investor\x27 was not found."⟩ ∧
      strContains "Expected column \x27prob_first_time_investor\x27 was not found."
        "prob_first_time_investor" = true) ∧
    (get_predictions stableArgsort
        (fun _ => FileState.parsed ⟨["customer_id"], [[Cell.num 7]]⟩)
        ModelChoice.weibull_tte_rnn 5 OutputFormat.json
      = Response.errResp ⟨422, "Expected column \x27risk_6m\x27 was not found."⟩ ∧
      strContains "Expected column \x27risk_6m\x27 was not found." "risk_6m"
        = true) :=
  ⟨(C5_error_status_mapping stableArgsort (fun _ => FileState.missing)
      ModelChoice.xgboost 5 OutputFormat.json).1 rfl,
   (C5_error_status_mapping stableArgsort (fun _ => FileState.parseError "bad line")
      ModelChoice.logistic_regression 5 OutputFormat.csv).2.1 "bad line" rfl,
   (C5_error_status_mapping stableArgsort
      (fun _ => FileState.parsed ⟨["customer_id"], []⟩)
      ModelChoice.weibull_tte_rnn 5 OutputFormat.json).2.2.1 _ rfl rfl,
   (C5_error_status_mapping stableArgsort
      (fun _ => FileState.parsed ⟨["customer_id"], [[Cell.num 7]]⟩)
      ModelChoice.logistic_regression 5 OutputFormat.json).2.2.2.1 _ rfl
      (by decide) (by decide) (Or.inl rfl) (by decide),
   (C5_error_status_mapping stableArgsort
      (fun _ => FileState.parsed ⟨["customer_id"], [[Cell.num 7]]⟩)
      ModelChoice.weibull_tte_rnn 5 OutputFormat.json).2.2.2.2 _ rfl
      (by decide) (by decide) rfl (by decide)⟩

/-- Witness for `C6_notfound_messages` at concrete filesystem states. -/
theorem C6_witness :
    (load_predictions (fun _ => FileState.missing) ModelChoice.xgboost
      = Except.error ⟨404, detail_missing ModelChoice.xgboost⟩ ∧
      strContains (detail_missing ModelChoice.xgboost)
        (MODEL_FILES ModelChoice.xgboost) = true ∧
      strContains (detail_missing ModelChoice.xgboost)
        (ModelChoice.xgboost).value = true) ∧
    (load_predictions (fun _ => FileState.parsed ⟨["customer_id"], []⟩)
        ModelChoice.xgboost
      = Except.error ⟨404, detail_empty ModelChoice.xgboost⟩ ∧
      strContains (detail_empty ModelChoice.xgboost)
        (MODEL_FILES ModelChoice.xgboost) = true) :=
  ⟨(C6_notfound_messages (fun _ => FileState.missing) ModelChoice.xgboost).1 rfl,
   (C6_notfound_messages (fun _ => FileState.parsed ⟨["customer_id"], []⟩)
      ModelChoice.xgboost).2 _ rfl rfl⟩

/-- Witness for `C7_json_body_shape` at a concrete one-row table. -/
theorem C7_witness :
    ∃ df top_df,
      (fun _ : ModelChoice => FileState.parsed
        (⟨["rank"], [[Cell.num 1]]⟩ : DataFrame)) ModelChoice.weibull_tte_rnn
        = FileState.parsed df ∧
      top_rows stableArgsort df ModelChoice.weibull_tte_rnn 4
        = Except.ok top_df ∧
      (JsonBody.mk "weibull_tte_rnn" 4 1 [[("rank", Cell.num 1)]]).model
        = (ModelChoice.weibull_tte_rnn).value ∧
      (JsonBody.mk "weibull_tte_rnn" 4 1 [[("rank", Cell.num 1)]]).top_x = 4 ∧
      (JsonBody.mk "weibull_tte_rnn" 4 1 [[("rank", Cell.num 1)]]).results
        = to_records top_df ∧
      (JsonBody.mk "weibull_tte_rnn" 4 1 [[("rank", Cell.num 1)]]).count
        = (JsonBody.mk "weibull_tte_rnn" 4 1 [[("rank", Cell.num 1)]]).results.length :=
  C7_json_body_shape stableArgsort
    (fun _ => FileState.parsed ⟨["rank"], [[Cell.num 1]]⟩)
    ModelChoice.weibull_tte_rnn 4 ⟨"weibull_tte_rnn", 4, 1, [[("rank", Cell.num 1)]]⟩
    (by decide)

/-- Witness for `C8_deterministic` at a concrete request. -/
theorem C8_witness :
    get_predictions stableArgsort
        (fun _ => FileState.parsed ⟨["rank"], [[Cell.num 1]]⟩)
        ModelChoice.xgboost 2 OutputFormat.csv
      = get_predictions stableArgsort
          (fun _ => FileState.parsed ⟨["rank"], [[Cell.num 1]]⟩)
          ModelChoice.xgboost 2 OutputFormat.csv ∧
    renderResponse (get_predictions stableArgsort
        (fun _ => FileState.parsed ⟨["rank"], [[Cell.num 1]]⟩)
        ModelChoice.xgboost 2 OutputFormat.csv)
      = renderResponse (get_predictions stableArgsort
          (fun _ => FileState.parsed ⟨["rank"], [[Cell.num 1]]⟩)
          ModelChoice.xgboost 2 OutputFormat.csv) :=
  C8_deterministic stableArgsort
    (fun _ => FileState.parsed ⟨["rank"], [[Cell.num 1]]⟩)
    (fun _ => FileState.parsed ⟨["rank"], [[Cell.num 1]]⟩)
    ModelChoice.xgboost ModelChoice.xgboost 2 2 OutputFormat.csv OutputFormat.csv
    rfl rfl rfl rfl

/-- Witness for `C10_missing_values_last` at a table with one missing
`risk_6m` value. -/
theorem C10_witness :
    ∃ out, top_rows stableArgsort
        (⟨["risk_6m"], [[Cell.na], [Cell.num 3]]⟩ : DataFrame)
        ModelChoice.weibull_tte_rnn 5 = Except.ok out ∧
      NoneLast (colKeys out
        (rankingColumn ⟨["risk_6m"], [[Cell.na], [Cell.num 3]]⟩
          ModelChoice.weibull_tte_rnn)) ∧
      ((DataFrame.mk ["risk_6m"] [[Cell.na], [Cell.num 3]]).rows.length ≤ 5 →
        out.rows.length
          = (DataFrame.mk ["risk_6m"] [[Cell.na], [Cell.num 3]]).rows.length ∧
        out.rows.filter (fun r => (colValOfRow
            ⟨["risk_6m"], [[Cell.na], [Cell.num 3]]⟩
            (rankingColumn ⟨["risk_6m"], [[Cell.na], [Cell.num 3]]⟩
              ModelChoice.weibull_tte_rnn) r).isNone)
          = (DataFrame.mk ["risk_6m"] [[Cell.na], [Cell.num 3]]).rows.filter
              (fun r => (colValOfRow
                ⟨["risk_6m"], [[Cell.na], [Cell.num 3]]⟩
                (rankingColumn ⟨["risk_6m"], [[Cell.na], [Cell.num 3]]⟩
                  ModelChoice.weibull_tte_rnn) r).isNone)) :=
  C10_missing_values_last stableArgsort
    ⟨["risk_6m"], [[Cell.na], [Cell.num 3]]⟩ ModelChoice.weibull_tte_rnn 5
    (by decide) (by decide) (by decide)
